import Mathlib

/-!
Verification of the image-sanitiser service
(`src/services/image-sanitiser/handler.py`).

The development shallowly embeds the two functions of the handler module:

* `strip_exif_metadata` — decode an image, convert it to RGB when needed,
  and re-encode it as JPEG at quality 95 with an empty EXIF block;
* `lambda_handler` — iterate the `Records` of an S3 event, fetch each
  object, sanitise it, write it to the configured output bucket, and
  collect one outcome per record, converting every per-item exception
  into an error outcome.

External collaborators are embedded explicitly: the Pillow codec is
modelled from the spec (its code is not part of the repository) as an
executable toy container format that preserves the properties the spec
relies on (format tag, quality constant, colour mode, dimensions,
metadata segment), and the S3 client is a parameter providing
`getObject`/`putObject` operations that may fail.
-/

namespace ImageSanitiser

/-- Raw byte strings; each entry abstracts one byte (or header field). -/
abbrev Bytes := List Nat

/-- Modelled from the spec: the colour modes of the Pillow image library
that this service can encounter (`image.mode` in the source). -/
inductive PILMode where
  | RGB
  | RGBA
  | L
  | LA
  | P
  | CMYK
deriving DecidableEq, Repr

/-- Number of colour channels of a mode. -/
def PILMode.channels : PILMode → Nat
  | .RGB => 3
  | .RGBA => 4
  | .L => 1
  | .LA => 2
  | .P => 1
  | .CMYK => 4

/-- Whether a mode carries an alpha channel. -/
def PILMode.hasAlpha : PILMode → Bool
  | .RGBA => true
  | .LA => true
  | _ => false

/-- Modes the JPEG container supports (no alpha). -/
def PILMode.jpegWritable : PILMode → Bool
  | .RGB => true
  | .L => true
  | .CMYK => true
  | _ => false

/-- Header code of each mode in the modelled container format. -/
def codeOfMode : PILMode → Nat
  | .RGB => 0
  | .RGBA => 1
  | .L => 2
  | .LA => 3
  | .P => 4
  | .CMYK => 5

/-- Inverse of `codeOfMode` on valid codes. -/
def modeOfCode : Nat → Option PILMode
  | 0 => some .RGB
  | 1 => some .RGBA
  | 2 => some .L
  | 3 => some .LA
  | 4 => some .P
  | 5 => some .CMYK
  | _ => none

/-- Modelled from the spec: a decoded Pillow image — colour mode,
dimensions, pixel raster, and the metadata (EXIF) segment carried by the
source file. -/
structure PILImage where
  mode : PILMode
  width : Nat
  height : Nat
  pixels : List Nat
  info_exif : Bytes
deriving DecidableEq, Repr

/-- Modelled from the spec: `PIL.Image.open` on a byte string. The
modelled container layout is
`format :: quality :: modeCode :: width :: height :: exifLen :: exif ++ pixels`
with format `1` = JPEG (never holding an alpha mode) and `2` = PNG.
Anything else — too short, unknown format tag, unknown mode, or a pixel
payload that does not match the declared dimensions — fails to decode,
as Pillow fails on truncated or non-image data. -/
def decodeImage : Bytes → Except String PILImage
  | fmt :: _q :: m :: w :: h :: elen :: rest =>
    if fmt = 1 ∨ fmt = 2 then
      match modeOfCode m with
      | some mode =>
        if fmt = 1 ∧ mode.jpegWritable = false then
          .error "unsupported JPEG mode"
        else if rest.length = elen + w * h * mode.channels then
          .ok { mode := mode, width := w, height := h,
                pixels := rest.drop elen, info_exif := rest.take elen }
        else
          .error "broken data stream"
      | none => .error "cannot identify image file"
    else
      .error "cannot identify image file"
  | _ => .error "cannot identify image file"

/-- Modelled from the spec: `image.convert("RGB")` — flatten to a
three-channel no-alpha raster of the same dimensions (transparency is
discarded, per §4.1 step 2); the decoded metadata is untouched. -/
def convertRGB (image : PILImage) : PILImage :=
  { mode := .RGB, width := image.width, height := image.height,
    pixels := (image.pixels ++
        List.replicate (image.width * image.height * 3) 0).take
        (image.width * image.height * 3),
    info_exif := [] }

/-- Modelled from the spec: `image.save(buffer, format="JPEG", quality=q,
exif=e)` — serialise into the JPEG container with exactly the given
quality and EXIF segment. Fails for modes JPEG cannot hold (e.g. RGBA),
as Pillow raises "cannot write mode RGBA as JPEG". -/
def saveJPEG (image : PILImage) (quality : Nat) (exif : Bytes) :
    Except String Bytes :=
  if image.mode.jpegWritable then
    .ok (1 :: quality :: codeOfMode image.mode :: image.width ::
         image.height :: exif.length :: (exif ++ image.pixels))
  else
    .error "cannot write this mode as JPEG"

/-- Container format tag of an encoded file (1 = JPEG). -/
def fileFormat : Bytes → Option Nat
  | f :: _ => some f
  | _ => none

/-- Quality field of an encoded file. -/
def fileQuality : Bytes → Option Nat
  | _ :: q :: _ => some q
  | _ => none

/-- Metadata (EXIF) segment of an encoded file. -/
def fileExifSegment : Bytes → Option Bytes
  | _ :: _ :: _ :: _ :: _ :: elen :: rest => some (rest.take elen)
  | _ => none

/-- The exceptions `strip_exif_metadata` can raise, tagged by origin:
the decode/encode exceptions re-raised by the final `except ... raise`,
and the `RuntimeError` raised when importing Pillow fails. -/
inductive SanError where
  | decodeError (msg : String)
  | encodeError (msg : String)
  | runtimeError (msg : String)
deriving DecidableEq, Repr

/-- `str(e)` of the raised exception, as used by the handler's logging
and error outcomes. -/
def SanError.message : SanError → String
  | .decodeError m => m
  | .encodeError m => m
  | .runtimeError m => m

/-- `strip_exif_metadata(image_data)` (handler.py lines 113–154).
`pilAvailable` embeds whether `from PIL import Image` succeeds; when it
does not, the function raises
`RuntimeError("Image processing library not available")`. Otherwise it
opens the image, converts to RGB when the mode differs from RGB, and
saves as JPEG at quality 95 with `exif=b""`; decode and encode failures
are re-raised unchanged. -/
def strip_exif_metadata (pilAvailable : Bool) (image_data : Bytes) :
    Except SanError Bytes :=
  if pilAvailable then
    match decodeImage image_data with
    | .error e => .error (.decodeError e)
    | .ok image =>
      match saveJPEG (if image.mode ≠ .RGB then convertRGB image else image)
          95 [] with
      | .error e => .error (.encodeError e)
      | .ok out => .ok out
  else
    .error (.runtimeError "Image processing library not available")

/-- One entry of the event's `Records` list. The source reads
`record["s3"]["bucket"]["name"]` and `record["s3"]["object"]["key"]`;
a `none` field embeds a `KeyError` anywhere along the corresponding
lookup chain. -/
structure Record where
  bucketName : Option String
  objectKey : Option String
deriving DecidableEq, Repr

/-- Response of `s3_client.get_object`: the object bytes read from
`response["Body"]` and the optional `ContentType` entry of the
response dictionary. -/
structure GetResponse where
  body : Bytes
  contentType : Option String

/-- The S3 client collaborator: `get_object` and `put_object`, either of
which may raise (embedded as `Except.error` carrying `str(e)`). -/
structure S3Env where
  getObject : String → String → Except String GetResponse
  putObject : String → String → Bytes → String → Except String Unit

/-- Process-level configuration: `OUTPUT_BUCKET = os.environ["OUTPUT_BUCKET"]`. -/
structure Config where
  OUTPUT_BUCKET : String

/-- One per-record result appended to `results`: either the success
dictionary `{status: "success", input_key, output_key, input_size,
output_size}` or the error dictionary `{status: "error", input_key,
error}`. -/
inductive Outcome where
  | success (input_key : String) (output_key : String)
      (input_size : Nat) (output_size : Nat)
  | error (input_key : String) (error_message : String)
deriving DecidableEq, Repr

/-- One `put_object` call issued against the S3 client, with its
arguments. -/
structure PutCall where
  bucket : String
  key : String
  body : Bytes
  contentType : String
deriving DecidableEq, Repr

/-- The body of one iteration of the record loop (handler.py lines
56–105): extract bucket and key (a failed extraction leaves
`object_key = ""`), download, sanitise, upload, and build the outcome;
any exception along the way is caught and converted into an error
outcome for this record. Also returns the list of `put_object` calls
the iteration issued. -/
def processRecord (cfg : Config) (env : S3Env) (pilAvailable : Bool)
    (record : Record) : Outcome × List PutCall :=
  match record.bucketName with
  | none => (.error "" "KeyError", [])
  | some bucket_name =>
    match record.objectKey with
    | none => (.error "" "KeyError", [])
    | some object_key =>
      match env.getObject bucket_name object_key with
      | .error e => (.error object_key e, [])
      | .ok response =>
        match strip_exif_metadata pilAvailable response.body with
        | .error e => (.error object_key e.message, [])
        | .ok sanitized_image =>
          let contentType := response.contentType.getD "image/jpeg"
          match env.putObject cfg.OUTPUT_BUCKET object_key sanitized_image
              contentType with
          | .error e =>
            (.error object_key e,
             [⟨cfg.OUTPUT_BUCKET, object_key, sanitized_image, contentType⟩])
          | .ok _ =>
            (.success object_key object_key response.body.length
               sanitized_image.length,
             [⟨cfg.OUTPUT_BUCKET, object_key, sanitized_image, contentType⟩])

/-- Value found at the `Records` key of the event dictionary: either a
list of records or some non-iterable JSON value (e.g. `null` or a
number), over which the `for` loop cannot iterate. -/
inductive RecordsField where
  | list (rs : List Record)
  | notIterable (typeName : String)

/-- The event argument: `records = none` embeds an event dictionary with
no `Records` key, so that `event.get("Records", [])` yields `[]`. -/
structure Event where
  records : Option RecordsField

/-- The dictionary serialised into the response body:
`{"processed": len(results), "results": results}`. -/
structure HandlerBody where
  processed : Nat
  results : List Outcome
deriving DecidableEq, Repr

/-- The handler's return value `{"statusCode": 200, "body": ...}` (the
body is kept structured; `json.dumps` is a bijective serialisation
detail). -/
structure HandlerResult where
  statusCode : Nat
  body : HandlerBody
deriving DecidableEq, Repr

/-- `lambda_handler(event, context)` (handler.py lines 41–110): iterate
`event.get("Records", [])`, run `processRecord` on each record, and
return status 200 with the collected results. Iterating a non-iterable
`Records` value raises a `TypeError` that propagates out of the handler
(embedded as `Except.error`). -/
def lambda_handler (cfg : Config) (env : S3Env) (pilAvailable : Bool)
    (event : Event) : Except String HandlerResult :=
  match event.records.getD (.list []) with
  | .notIterable typeName =>
    .error ("TypeError: " ++ typeName ++ " object is not iterable")
  | .list rs =>
    let results := rs.map fun record =>
      (processRecord cfg env pilAvailable record).1
    .ok { statusCode := 200,
          body := { processed := results.length, results := results } }

/-- All four per-record steps succeed for this record: the fields are
present, the download, the sanitisation and the upload all return
normally. -/
def recordSucceeds (cfg : Config) (env : S3Env) (pilAvailable : Bool)
    (record : Record) : Prop :=
  ∃ bucket_name object_key response sanitized_image,
    record.bucketName = some bucket_name ∧
    record.objectKey = some object_key ∧
    env.getObject bucket_name object_key = .ok response ∧
    strip_exif_metadata pilAvailable response.body = .ok sanitized_image ∧
    env.putObject cfg.OUTPUT_BUCKET object_key sanitized_image
      (response.contentType.getD "image/jpeg") = .ok ()

/-- Whether an embedded call returned normally (`true`) or raised
(`false`). -/
def returnedNormally {E A : Type} : Except E A → Bool
  | .ok _ => true
  | .error _ => false

/-! ### Concrete test fixtures -/

/-- A 1×1 RGB JPEG test file carrying a two-byte EXIF segment. -/
def testImageBytes : Bytes := [1, 95, 0, 1, 1, 2, 9, 9, 10, 20, 30]

/-- A 1×1 RGBA PNG test file (alpha channel, no metadata). -/
def testRGBABytes : Bytes := [2, 0, 1, 1, 1, 0, 1, 2, 3, 4]

/-- Configuration used by the concrete scenarios. -/
def testConfig : Config := ⟨"bucket-out"⟩

/-- An S3 environment in which every download yields the RGB test file
with a declared content type and every upload succeeds. -/
def testEnv : S3Env :=
  { getObject := fun _ _ => .ok ⟨testImageBytes, some "image/png"⟩,
    putObject := fun _ _ _ _ => .ok () }

/-- An S3 environment whose responses declare no content type. -/
def testEnvNoDeclared : S3Env :=
  { getObject := fun _ _ => .ok ⟨testImageBytes, none⟩,
    putObject := fun _ _ _ _ => .ok () }

/-- An S3 environment whose downloads fail. -/
def testEnvFetchFail : S3Env :=
  { getObject := fun _ _ => .error "not found",
    putObject := fun _ _ _ _ => .ok () }

/-- A well-formed test record. -/
def testRecord : Record := ⟨some "bucket-in", some "photo.jpg"⟩

/-- A malformed test record: its object key cannot be extracted. -/
def testBadRecord : Record := ⟨some "bucket-in", none⟩

/-! ### Helper lemmas about the sanitiser -/

/-- A decoded image's raster matches its declared dimensions and mode. -/
lemma decodeImage_ok_pixels (bs : Bytes) (img : PILImage)
    (h : decodeImage bs = .ok img) :
    img.pixels.length = img.width * img.height * img.mode.channels := by
  rcases bs with _ | ⟨fmt, _ | ⟨q, _ | ⟨m, _ | ⟨w, _ | ⟨ht, _ | ⟨elen, rest⟩⟩⟩⟩⟩⟩ <;>
    simp only [decodeImage] at h <;> try exact absurd h (by simp)
  split at h
  · split at h
    · split at h
      · exact absurd h (by simp)
      · split at h
        · rename_i hlen
          cases h
          simp only [List.length_drop, hlen]
          omega
        · exact absurd h (by simp)
    · exact absurd h (by simp)
  · exact absurd h (by simp)

/-- Conversion to RGB yields a raster matching the dimensions at three
channels. -/
lemma convertRGB_pixels_length (img : PILImage) :
    (convertRGB img).pixels.length = img.width * img.height * 3 := by
  simp only [convertRGB, List.length_take, List.length_append,
    List.length_replicate]
  omega

/-- Decoding an RGB JPEG file produced by `saveJPEG` with an empty EXIF
block recovers the image exactly, with no metadata. -/
lemma decode_encodedRGB (w ht : Nat) (ps : List Nat)
    (hlen : ps.length = w * ht * 3) :
    decodeImage (1 :: 95 :: 0 :: w :: ht :: 0 :: ps) =
      .ok { mode := .RGB, width := w, height := ht, pixels := ps,
            info_exif := [] } := by
  simp [decodeImage, modeOfCode, PILMode.jpegWritable, PILMode.channels, hlen]

/-- `saveJPEG` on an RGB image succeeds and produces the explicit
container bytes. -/
lemma saveJPEG_rgb (img : PILImage) (hm : img.mode = .RGB) :
    saveJPEG img 95 [] =
      .ok (1 :: 95 :: 0 :: img.width :: img.height :: 0 :: img.pixels) := by
  simp [saveJPEG, hm, PILMode.jpegWritable, codeOfMode]

/-- Full characterisation of a successful sanitisation: decoding
succeeds, so the function converts to RGB when needed, re-encodes at
quality 95 with an empty metadata block, and the output decodes back to
an RGB image of the input's dimensions. -/
lemma sanitize_spec (bs : Bytes) (img : PILImage)
    (h : decodeImage bs = .ok img) :
    ∃ out img', strip_exif_metadata true bs = .ok out ∧
      decodeImage out = .ok img' ∧
      img'.mode = .RGB ∧ img'.width = img.width ∧ img'.height = img.height ∧
      img'.info_exif = [] ∧
      fileFormat out = some 1 ∧ fileQuality out = some 95 ∧
      fileExifSegment out = some [] := by
  by_cases hm : img.mode = .RGB
  · refine ⟨1 :: 95 :: 0 :: img.width :: img.height :: 0 :: img.pixels,
      { mode := .RGB, width := img.width, height := img.height,
        pixels := img.pixels, info_exif := [] }, ?_, ?_, by simp, by simp,
      by simp, by simp, by simp [fileFormat], by simp [fileQuality],
      by simp [fileExifSegment]⟩
    · simp [strip_exif_metadata, h, hm, saveJPEG_rgb]
    · have hp := decodeImage_ok_pixels bs img h
      rw [hm] at hp
      exact decode_encodedRGB _ _ _ hp
  · refine ⟨1 :: 95 :: 0 :: img.width :: img.height :: 0 ::
        (convertRGB img).pixels,
      { mode := .RGB, width := img.width, height := img.height,
        pixels := (convertRGB img).pixels, info_exif := [] }, ?_, ?_, by simp,
      by simp, by simp, by simp, by simp [fileFormat], by simp [fileQuality],
      by simp [fileExifSegment]⟩
    · have hs := saveJPEG_rgb (convertRGB img) (by simp [convertRGB])
      simp only [convertRGB] at hs
      simp [strip_exif_metadata, h, hm, hs, convertRGB]
    · exact decode_encodedRGB _ _ _ (convertRGB_pixels_length img)

/-- A successful sanitisation presupposes a successful decode. -/
lemma strip_ok_inv (bs out : Bytes)
    (h : strip_exif_metadata true bs = .ok out) :
    ∃ img, decodeImage bs = .ok img := by
  cases hd : decodeImage bs with
  | error e => simp [strip_exif_metadata, hd] at h
  | ok img => exact ⟨img, rfl⟩

/-! ### Helper lemmas about the dispatcher -/

/-- A success outcome from the record loop pins down every step: the
fields were present, download, sanitisation and upload succeeded, the
output key and the sizes are the ones of the claim, and exactly one
`put_object` call was issued — to the configured output bucket, at the
source key, with the sanitised bytes and the response's content type
(defaulted to `image/jpeg`). -/
lemma processRecord_success_inv (cfg : Config) (env : S3Env) (pil : Bool)
    (r : Record) (k k' : String) (n m : Nat)
    (h : (processRecord cfg env pil r).1 = .success k k' n m) :
    ∃ b response sanitized,
      r.bucketName = some b ∧ r.objectKey = some k ∧
      env.getObject b k = .ok response ∧
      strip_exif_metadata pil response.body = .ok sanitized ∧
      env.putObject cfg.OUTPUT_BUCKET k sanitized
        (response.contentType.getD "image/jpeg") = .ok () ∧
      k' = k ∧ n = response.body.length ∧ m = sanitized.length ∧
      (processRecord cfg env pil r).2 =
        [⟨cfg.OUTPUT_BUCKET, k, sanitized,
          response.contentType.getD "image/jpeg"⟩] := by
  cases hb : r.bucketName with
  | none => simp [processRecord, hb] at h
  | some b =>
  cases hk : r.objectKey with
  | none => simp [processRecord, hb, hk] at h
  | some key =>
  cases hg : env.getObject b key with
  | error e => simp [processRecord, hb, hk, hg] at h
  | ok response =>
  cases hs : strip_exif_metadata pil response.body with
  | error e => simp [processRecord, hb, hk, hg, hs] at h
  | ok sanitized =>
  cases hp : env.putObject cfg.OUTPUT_BUCKET key sanitized
      (response.contentType.getD "image/jpeg") with
  | error e => simp [processRecord, hb, hk, hg, hs, hp] at h
  | ok u =>
    cases u
    simp only [processRecord, hb, hk, hg, hs, hp] at h
    obtain ⟨hk1, hk2, hn, hm⟩ := Outcome.success.inj h
    subst hk1 hk2 hn hm
    exact ⟨b, response, sanitized, rfl, rfl, hg, hs, hp, rfl, rfl, rfl,
      by simp [processRecord, hb, hk, hg, hs, hp]⟩

/-- The record loop yields a success outcome exactly when all four
steps succeed. -/
lemma processRecord_success_iff (cfg : Config) (env : S3Env) (pil : Bool)
    (r : Record) :
    (∃ k k' n m, (processRecord cfg env pil r).1 = .success k k' n m) ↔
      recordSucceeds cfg env pil r := by
  constructor
  · rintro ⟨k, k', n, m, h⟩
    obtain ⟨b, response, sanitized, hb, hk, hg, hs, hp, -⟩ :=
      processRecord_success_inv cfg env pil r k k' n m h
    exact ⟨b, k, response, sanitized, hb, hk, hg, hs, hp⟩
  · rintro ⟨b, k, response, sanitized, hb, hk, hg, hs, hp⟩
    exact ⟨k, k, response.body.length, sanitized.length,
      by simp [processRecord, hb, hk, hg, hs, hp]⟩

/-- Every record yields exactly one outcome: a success or an error,
never an escaping exception. -/
lemma processRecord_total (cfg : Config) (env : S3Env) (pil : Bool)
    (r : Record) :
    (∃ k k' n m, (processRecord cfg env pil r).1 = .success k k' n m) ∨
      (∃ k msg, (processRecord cfg env pil r).1 = .error k msg) := by
  cases h : (processRecord cfg env pil r).1 with
  | success k k' n m => exact .inl ⟨k, k', n, m, rfl⟩
  | error k msg => exact .inr ⟨k, msg, rfl⟩

/-- An outcome is an error exactly when some step of the record's
processing fails. -/
lemma processRecord_error_iff (cfg : Config) (env : S3Env) (pil : Bool)
    (r : Record) :
    (∃ k msg, (processRecord cfg env pil r).1 = .error k msg) ↔
      ¬ recordSucceeds cfg env pil r := by
  constructor
  · rintro ⟨k, msg, h⟩ hsucc
    rw [← processRecord_success_iff] at hsucc
    obtain ⟨a, a', n, m, h2⟩ := hsucc
    rw [h] at h2
    exact absurd h2 (by simp)
  · intro hn
    rcases processRecord_total cfg env pil r with h | h
    · exact absurd ((processRecord_success_iff cfg env pil r).mp h) hn
    · exact h

/-- On a list-shaped `Records` field the handler returns status 200 and
the pointwise map of the record loop. -/
lemma lambda_handler_list (cfg : Config) (env : S3Env) (pil : Bool)
    (rs : List Record) :
    lambda_handler cfg env pil ⟨some (.list rs)⟩ =
      .ok ⟨200, ⟨rs.length,
        rs.map fun r => (processRecord cfg env pil r).1⟩⟩ := by
  simp [lambda_handler]

/-- Looking up the position right after a prefix in an appended list. -/
lemma getElem?_append_self {α : Type} (l1 l2 : List α) (a : α) :
    (l1 ++ a :: l2)[l1.length]? = some a := by
  induction l1 with
  | nil => simp
  | cons x xs ih => simpa using ih

/-- Looking up positions strictly after an inserted element. -/
lemma getElem?_append_after {α : Type} (l1 l2 : List α) (a : α) (j : Nat) :
    (l1 ++ a :: l2)[l1.length + 1 + j]? = l2[j]? := by
  induction l1 with
  | nil =>
    rw [List.nil_append, List.length_nil, Nat.zero_add, Nat.add_comm 1 j,
      List.getElem?_cons_succ]
  | cons x xs ih =>
    have harith : (x :: xs).length + 1 + j = (xs.length + 1 + j) + 1 := by
      simp [List.length_cons]
      omega
    rw [harith, List.cons_append, List.getElem?_cons_succ]
    exact ih

/-! ### The claims -/

/-- Claim C1: for every batch of notifications, `handle` returns exactly
one Outcome per notification, in input order, with `processed` equal to
the number of outcomes; any per-item error (malformed notification,
fetch failure, sanitize failure, write failure) is converted into a
Failure outcome for that item and never prevents processing of
subsequent items or fails the whole invocation. -/
theorem c1_batch_outcomes (cfg : Config) (env : S3Env) (pil : Bool)
    (rs : List Record) :
    lambda_handler cfg env pil ⟨some (.list rs)⟩ =
      .ok ⟨200, ⟨rs.length,
        rs.map fun r => (processRecord cfg env pil r).1⟩⟩ ∧
    (rs.map fun r => (processRecord cfg env pil r).1).length = rs.length ∧
    (∀ i : Nat,
      (rs.map fun r => (processRecord cfg env pil r).1)[i]? =
        (rs[i]?).map fun r => (processRecord cfg env pil r).1) ∧
    ∀ r : Record,
      ((∃ k k' n m, (processRecord cfg env pil r).1 = .success k k' n m) ∨
        (∃ k msg, (processRecord cfg env pil r).1 = .error k msg)) ∧
      ((∃ k msg, (processRecord cfg env pil r).1 = .error k msg) ↔
        ¬ recordSucceeds cfg env pil r) := by
  refine ⟨lambda_handler_list cfg env pil rs, List.length_map _ _, ?_, ?_⟩
  · intro i
    exact List.getElem?_map _ _ _
  · intro r
    exact ⟨processRecord_total cfg env pil r,
      processRecord_error_iff cfg env pil r⟩

theorem c1_witness :
    lambda_handler testConfig testEnvFetchFail true
        ⟨some (.list [testRecord, testBadRecord])⟩ =
      .ok ⟨200, ⟨2, [.error "photo.jpg" "not found", .error "" "KeyError"]⟩⟩ := by
  have h := (c1_batch_outcomes testConfig testEnvFetchFail true
    [testRecord, testBadRecord]).1
  rw [h]
  rfl

/-- Claim C2: for every byte sequence that is not a decodable image,
`strip_exif_metadata` fails with an error of kind DecodeError — the
decode exception re-raised unchanged — and never with an error of any
unrelated kind. -/
theorem c2_nonimage_decode_error (bs : Bytes) (e : String)
    (h : decodeImage bs = .error e) :
    strip_exif_metadata true bs = .error (.decodeError e) := by
  simp [strip_exif_metadata, h]

theorem c2_witness :
    decodeImage [] = .error "cannot identify image file" ∧
    strip_exif_metadata true [] =
      .error (.decodeError "cannot identify image file") :=
  ⟨rfl, c2_nonimage_decode_error [] "cannot identify image file" rfl⟩

/-- Claim C3: for every valid input image, sanitisation succeeds and its
output decodes to a three-channel RGB image without alpha whose width
and height equal the input image's; in particular any alpha channel of
the input is gone from the output. -/
theorem c3_output_rgb_same_dims (bs : Bytes) (img : PILImage)
    (h : decodeImage bs = .ok img) :
    ∃ out img', strip_exif_metadata true bs = .ok out ∧
      decodeImage out = .ok img' ∧
      img'.mode = .RGB ∧ img'.mode.hasAlpha = false ∧
      img'.width = img.width ∧ img'.height = img.height := by
  obtain ⟨out, img', h1, h2, h3, h4, h5, -, -, -, -⟩ := sanitize_spec bs img h
  exact ⟨out, img', h1, h2, h3, by rw [h3]; rfl, h4, h5⟩

theorem c3_witness :
    decodeImage testRGBABytes =
      .ok ⟨.RGBA, 1, 1, [1, 2, 3, 4], []⟩ ∧
    ∃ out img', strip_exif_metadata true testRGBABytes = .ok out ∧
      decodeImage out = .ok img' ∧
      img'.mode = .RGB ∧ img'.mode.hasAlpha = false ∧
      img'.width = 1 ∧ img'.height = 1 :=
  ⟨rfl, c3_output_rgb_same_dims testRGBABytes ⟨.RGBA, 1, 1, [1, 2, 3, 4], []⟩ rfl⟩

/-- Claim C4: for every valid input image, regardless of container
format, sanitisation re-encodes to the fixed JPEG target format at the
fixed quality constant 95 with the metadata block explicitly empty, and
the output contains no EXIF segment and is decodable with empty
metadata. -/
theorem c4_fixed_format (bs : Bytes) (img : PILImage)
    (h : decodeImage bs = .ok img) :
    ∃ out img', strip_exif_metadata true bs = .ok out ∧
      fileFormat out = some 1 ∧ fileQuality out = some 95 ∧
      fileExifSegment out = some [] ∧
      decodeImage out = .ok img' ∧ img'.info_exif = [] := by
  obtain ⟨out, img', h1, h2, -, -, -, h6, h7, h8, h9⟩ := sanitize_spec bs img h
  exact ⟨out, img', h1, h7, h8, h9, h2, h6⟩

theorem c4_witness :
    decodeImage testImageBytes =
      .ok ⟨.RGB, 1, 1, [10, 20, 30], [9, 9]⟩ ∧
    ∃ out img', strip_exif_metadata true testImageBytes = .ok out ∧
      fileFormat out = some 1 ∧ fileQuality out = some 95 ∧
      fileExifSegment out = some [] ∧
      decodeImage out = .ok img' ∧ img'.info_exif = [] :=
  ⟨rfl, c4_fixed_format testImageBytes ⟨.RGB, 1, 1, [10, 20, 30], [9, 9]⟩ rfl⟩

/-- Claim C5: for every valid input image, sanitising the output of a
successful sanitisation succeeds again, and the result has the same
dimensions as the first sanitised image. -/
theorem c5_idempotent (bs out : Bytes)
    (h : strip_exif_metadata true bs = .ok out) :
    ∃ out2 img1 img2, strip_exif_metadata true out = .ok out2 ∧
      decodeImage out = .ok img1 ∧ decodeImage out2 = .ok img2 ∧
      img2.width = img1.width ∧ img2.height = img1.height := by
  obtain ⟨img, hd⟩ := strip_ok_inv bs out h
  obtain ⟨out₀, img1, h1, h2, -, -, -, -, -, -, -⟩ := sanitize_spec bs img hd
  rw [h] at h1
  obtain rfl : out = out₀ := Except.ok.inj h1
  obtain ⟨out2, img2, g1, g2, -, g4, g5, -, -, -, -⟩ :=
    sanitize_spec out img1 h2
  exact ⟨out2, img1, img2, g1, h2, g2, g4, g5⟩

theorem c5_witness :
    strip_exif_metadata true testImageBytes =
      .ok [1, 95, 0, 1, 1, 0, 10, 20, 30] ∧
    ∃ out2 img1 img2,
      strip_exif_metadata true [1, 95, 0, 1, 1, 0, 10, 20, 30] = .ok out2 ∧
      decodeImage [1, 95, 0, 1, 1, 0, 10, 20, 30] = .ok img1 ∧
      decodeImage out2 = .ok img2 ∧
      img2.width = img1.width ∧ img2.height = img1.height :=
  ⟨rfl, c5_idempotent testImageBytes [1, 95, 0, 1, 1, 0, 10, 20, 30] rfl⟩

/-- Claim C6: for every Success outcome produced by `handle`,
`output_key` equals `input_key`, the sanitised bytes are written to the
configured destination store at a key identical to the source key,
`input_size` equals the length of the fetched raw bytes, and
`output_size` equals the length of the sanitised bytes. -/
theorem c6_success_traceability (cfg : Config) (env : S3Env) (pil : Bool)
    (r : Record) (k k' : String) (n m : Nat)
    (h : (processRecord cfg env pil r).1 = .success k k' n m) :
    k' = k ∧
    ∃ b response sanitized,
      r.bucketName = some b ∧ r.objectKey = some k ∧
      env.getObject b k = .ok response ∧
      strip_exif_metadata pil response.body = .ok sanitized ∧
      n = response.body.length ∧ m = sanitized.length ∧
      (processRecord cfg env pil r).2 =
        [⟨cfg.OUTPUT_BUCKET, k, sanitized,
          response.contentType.getD "image/jpeg"⟩] := by
  obtain ⟨b, response, sanitized, h1, h2, h3, h4, h5, h6, h7, h8, h9⟩ :=
    processRecord_success_inv cfg env pil r k k' n m h
  exact ⟨h6, b, response, sanitized, h1, h2, h3, h4, h7, h8, h9⟩

theorem c6_witness :
    (processRecord testConfig testEnv true testRecord).1 =
      .success "photo.jpg" "photo.jpg" 11 9 ∧
    ("photo.jpg" = "photo.jpg" ∧
      ∃ b response sanitized,
        testRecord.bucketName = some b ∧
        testRecord.objectKey = some "photo.jpg" ∧
        testEnv.getObject b "photo.jpg" = .ok response ∧
        strip_exif_metadata true response.body = .ok sanitized ∧
        11 = response.body.length ∧ 9 = sanitized.length ∧
        (processRecord testConfig testEnv true testRecord).2 =
          [⟨testConfig.OUTPUT_BUCKET, "photo.jpg", sanitized,
            response.contentType.getD "image/jpeg"⟩]) :=
  ⟨rfl, c6_success_traceability testConfig testEnv true testRecord
    "photo.jpg" "photo.jpg" 11 9 rfl⟩

/-- Claim C7: for every notification whose required fields cannot be
extracted, `handle` still produces a Failure outcome for that item,
reporting the source key as empty, and continues with the remaining
notifications rather than aborting the batch. -/
theorem c7_malformed_record (cfg : Config) (env : S3Env) (pil : Bool)
    (r : Record) (h : r.bucketName = none ∨ r.objectKey = none) :
    (processRecord cfg env pil r).1 = .error "" "KeyError" ∧
    ∀ rs1 rs2 : List Record,
      lambda_handler cfg env pil ⟨some (.list (rs1 ++ r :: rs2))⟩ =
        .ok ⟨200, ⟨(rs1 ++ r :: rs2).length,
          (rs1 ++ r :: rs2).map fun x => (processRecord cfg env pil x).1⟩⟩ ∧
      ((rs1 ++ r :: rs2).map fun x =>
          (processRecord cfg env pil x).1)[rs1.length]? =
        some (.error "" "KeyError") ∧
      ∀ j : Nat,
        ((rs1 ++ r :: rs2).map fun x =>
            (processRecord cfg env pil x).1)[rs1.length + 1 + j]? =
          (rs2[j]?).map fun x => (processRecord cfg env pil x).1 := by
  have hout : (processRecord cfg env pil r).1 = .error "" "KeyError" := by
    rcases h with hb | hk
    · simp [processRecord, hb]
    · cases hb : r.bucketName with
      | none => simp [processRecord, hb]
      | some b => simp [processRecord, hb, hk]
  refine ⟨hout, fun rs1 rs2 => ⟨lambda_handler_list cfg env pil _, ?_, ?_⟩⟩
  · rw [List.getElem?_map, getElem?_append_self]
    simp [hout]
  · intro j
    rw [List.getElem?_map, getElem?_append_after, ← List.getElem?_map]

theorem c7_witness :
    (testBadRecord.bucketName = none ∨ testBadRecord.objectKey = none) ∧
    (processRecord testConfig testEnv true testBadRecord).1 =
      .error "" "KeyError" :=
  ⟨Or.inr rfl,
    (c7_malformed_record testConfig testEnv true testBadRecord (Or.inr rfl)).1⟩

/-- Claim C8: for every successfully processed notification, the
destination write is performed with content type equal to the declared
input content type when present, and with the default `image/jpeg`
otherwise. -/
theorem c8_content_type (cfg : Config) (env : S3Env) (pil : Bool)
    (r : Record) (k k' : String) (n m : Nat)
    (h : (processRecord cfg env pil r).1 = .success k k' n m) :
    ∃ b response sanitized p,
      r.bucketName = some b ∧ r.objectKey = some k ∧
      env.getObject b k = .ok response ∧
      strip_exif_metadata pil response.body = .ok sanitized ∧
      (processRecord cfg env pil r).2 = [p] ∧
      p.bucket = cfg.OUTPUT_BUCKET ∧ p.key = k ∧ p.body = sanitized ∧
      p.contentType = response.contentType.getD "image/jpeg" := by
  obtain ⟨b, response, sanitized, h1, h2, h3, h4, -, -, -, -, h9⟩ :=
    processRecord_success_inv cfg env pil r k k' n m h
  exact ⟨b, response, sanitized,
    ⟨cfg.OUTPUT_BUCKET, k, sanitized, response.contentType.getD "image/jpeg"⟩,
    h1, h2, h3, h4, h9, rfl, rfl, rfl, rfl⟩

theorem c8_witness :
    (processRecord testConfig testEnvNoDeclared true testRecord).1 =
      .success "photo.jpg" "photo.jpg" 11 9 ∧
    ∃ b response sanitized p,
      testRecord.bucketName = some b ∧
      testRecord.objectKey = some "photo.jpg" ∧
      testEnvNoDeclared.getObject b "photo.jpg" = .ok response ∧
      strip_exif_metadata true response.body = .ok sanitized ∧
      (processRecord testConfig testEnvNoDeclared true testRecord).2 = [p] ∧
      p.bucket = testConfig.OUTPUT_BUCKET ∧ p.key = "photo.jpg" ∧
      p.body = sanitized ∧
      p.contentType = response.contentType.getD "image/jpeg" :=
  ⟨rfl, c8_content_type testConfig testEnvNoDeclared true testRecord
    "photo.jpg" "photo.jpg" 11 9 rfl⟩

/-- Claim C9 (amended): for every input event whose `Records` field is
absent or holds a list of records, `handle` returns
`{statusCode: 200, body: {processed, results}}` with status code 200
regardless of per-item failures, and an absent `Records` field or an
empty batch yields `processed = 0` and `results = []`; but when the
`Records` field is present and not iterable, the invocation raises a
`TypeError` instead of returning. -/
theorem c9_response_shape (cfg : Config) (env : S3Env) (pil : Bool) :
    lambda_handler cfg env pil ⟨none⟩ = .ok ⟨200, ⟨0, []⟩⟩ ∧
    lambda_handler cfg env pil ⟨some (.list [])⟩ = .ok ⟨200, ⟨0, []⟩⟩ ∧
    (∀ rs : List Record, ∃ results : List Outcome,
      lambda_handler cfg env pil ⟨some (.list rs)⟩ =
        .ok ⟨200, ⟨results.length, results⟩⟩) ∧
    ∀ t : String,
      lambda_handler cfg env pil ⟨some (.notIterable t)⟩ =
        .error ("TypeError: " ++ t ++ " object is not iterable") := by
  refine ⟨rfl, rfl, fun rs =>
    ⟨rs.map fun r => (processRecord cfg env pil r).1, ?_⟩, fun t => rfl⟩
  rw [List.length_map]
  exact lambda_handler_list cfg env pil rs

theorem c9_counterexample :
    lambda_handler testConfig testEnv true ⟨some (.notIterable "NoneType")⟩ =
      .error "TypeError: NoneType object is not iterable" ∧
    returnedNormally
      (lambda_handler testConfig testEnv true
        ⟨some (.notIterable "NoneType")⟩) = false :=
  ⟨rfl, rfl⟩

theorem c9_witness :
    lambda_handler testConfig testEnv true ⟨none⟩ = .ok ⟨200, ⟨0, []⟩⟩ :=
  (c9_response_shape testConfig testEnv true).1

/-- Claim C10: if the image-processing library cannot be imported,
`strip_exif_metadata` raises a RuntimeError with the message
"Image processing library not available" — outside the spec's error
taxonomy — and for any item hitting this branch the dispatcher records
it as that item's Failure outcome rather than failing the batch. -/
theorem c10_pil_unavailable (cfg : Config) (env : S3Env) (r : Record)
    (b k : String) (response : GetResponse)
    (h1 : r.bucketName = some b) (h2 : r.objectKey = some k)
    (h3 : env.getObject b k = .ok response) :
    (∀ bs : Bytes, strip_exif_metadata false bs =
      .error (.runtimeError "Image processing library not available")) ∧
    (processRecord cfg env false r).1 =
      .error k "Image processing library not available" ∧
    ∀ rs : List Record,
      lambda_handler cfg env false ⟨some (.list rs)⟩ =
        .ok ⟨200, ⟨rs.length,
          rs.map fun x => (processRecord cfg env false x).1⟩⟩ := by
  refine ⟨fun bs => rfl, ?_, fun rs => lambda_handler_list cfg env false rs⟩
  simp [processRecord, h1, h2, h3, strip_exif_metadata, SanError.message]

theorem c10_witness :
    testRecord.bucketName = some "bucket-in" ∧
    (processRecord testConfig testEnv false testRecord).1 =
      .error "photo.jpg" "Image processing library not available" :=
  ⟨rfl, (c10_pil_unavailable testConfig testEnv testRecord "bucket-in"
    "photo.jpg" ⟨testImageBytes, some "image/png"⟩ rfl rfl rfl).2.1⟩

end ImageSanitiser
